import Mathlib

/-!
Shallow embedding of the flowy canvas interaction engine
(`src/lib/types.ts`, `src/lib/utils.ts`, `src/lib/Canvas.tsx`).
Numbers are modelled as exact rationals (`Rat`); JSON documents as an
inductive `Json` value (the string layer of `JSON.stringify`/`JSON.parse`
is abstracted as an injective printer with a correct parser).
-/

namespace Flowy

/-- A JSON value, as produced by `JSON.parse`.  Object fields are kept as an
ordered association list, matching the field order of a parsed object. -/
inductive Json where
  | null : Json
  | bool (b : Bool) : Json
  | num (q : Rat) : Json
  | str (s : String) : Json
  | arr (elems : List Json) : Json
  | obj (fields : List (String × Json)) : Json

/-- Mirror of `types.ts` `Position`. -/
structure Position where
  x : Rat
  y : Rat
deriving DecidableEq, Repr

/-- Mirror of `types.ts` `NodeData`.  The open `data: Record<string, any>` record
is modelled as the field list of a JSON object. -/
structure NodeData where
  id : String
  type : String
  position : Position
  data : List (String × Json)

/-- Mirror of `types.ts` `WireData`; `sourceOutput`/`targetInput` are optional. -/
structure WireData where
  id : String
  sourceNodeId : String
  targetNodeId : String
  sourceOutput : Option String
  targetInput : Option String
deriving DecidableEq, Repr

/-- Mirror of `types.ts` `WorkflowData`. -/
structure WorkflowData where
  nodes : List NodeData
  wires : List WireData

/-- Mirror of `utils.ts` `createWorkflow` with default arguments. -/
def createWorkflow : WorkflowData := ⟨[], []⟩

/-- Mirror of `utils.ts` `removeNodeFromWorkflow`. -/
def removeNodeFromWorkflow (workflow : WorkflowData) (nodeId : String) :
    WorkflowData where
  nodes := workflow.nodes.filter (fun node => node.id ≠ nodeId)
  wires := workflow.wires.filter
    (fun wire => wire.sourceNodeId ≠ nodeId ∧ wire.targetNodeId ≠ nodeId)

/-- The workflow update performed by `Canvas.tsx` `handleNodeDelete`
(the function passed to `onWorkflowChange`). -/
def handleNodeDeleteWorkflow (prevWorkflow : WorkflowData) (nodeId : String) :
    WorkflowData where
  nodes := prevWorkflow.nodes.filter (fun node => node.id ≠ nodeId)
  wires := prevWorkflow.wires.filter
    (fun wire => wire.sourceNodeId ≠ nodeId ∧ wire.targetNodeId ≠ nodeId)

/-- Mirror of `utils.ts` `updateNodeInWorkflow`, specialised to a position
update (the only `Partial<NodeData>` shape the drag path delivers). -/
def updateNodeInWorkflow (workflow : WorkflowData) (nodeId : String)
    (position : Position) : WorkflowData where
  nodes := workflow.nodes.map
    (fun node => if node.id = nodeId then { node with position := position } else node)
  wires := workflow.wires

/-- Property access `obj[key]` on a parsed JSON object; `none` models
`undefined`. -/
def Json.getField (j : Json) (key : String) : Option Json :=
  match j with
  | .obj fields => fields.lookup key
  | _ => none

/-- Read a JSON field as a string; the empty string models the arbitrary
result of TypeScript's unchecked cast on a malformed document. -/
def jsonAsString (j : Option Json) : String :=
  match j with
  | some (.str s) => s
  | _ => ""

/-- Read a JSON field as a number (see `jsonAsString` on malformed input). -/
def jsonAsNum (j : Option Json) : Rat :=
  match j with
  | some (.num q) => q
  | _ => 0

/-- Read an optional JSON string field; an absent field is `undefined`. -/
def jsonAsOptString (j : Option Json) : Option String :=
  match j with
  | some (.str s) => some s
  | _ => none

/-- Read a JSON field as an object's field list. -/
def jsonAsFields (j : Option Json) : List (String × Json) :=
  match j with
  | some (.obj fields) => fields
  | _ => []

/-- JSON encoding of a `Position` as produced by `JSON.stringify`. -/
def encodePosition (p : Position) : Json :=
  .obj [("x", .num p.x), ("y", .num p.y)]

/-- JSON encoding of a `NodeData` as produced by `JSON.stringify`. -/
def encodeNode (n : NodeData) : Json :=
  .obj [("id", .str n.id), ("type", .str n.type),
        ("position", encodePosition n.position), ("data", .obj n.data)]

/-- JSON encoding of a `WireData` as produced by `JSON.stringify`;
fields holding `undefined` are dropped from the output object. -/
def encodeWire (w : WireData) : Json :=
  .obj ([("id", .str w.id), ("sourceNodeId", .str w.sourceNodeId),
         ("targetNodeId", .str w.targetNodeId)] ++
        (match w.sourceOutput with
         | some s => [("sourceOutput", Json.str s)]
         | none => []) ++
        (match w.targetInput with
         | some s => [("targetInput", Json.str s)]
         | none => []))

/-- Mirror of `utils.ts` `serializeWorkflow`: the JSON document printed by
`JSON.stringify(workflow, null, 2)` (the printed string itself is abstracted:
printing is injective and `JSON.parse` inverts it). -/
def serializeWorkflow (workflow : WorkflowData) : Json :=
  .obj [("nodes", .arr (workflow.nodes.map encodeNode)),
        ("wires", .arr (workflow.wires.map encodeWire))]

/-- Reading a parsed JSON value back as a `NodeData` (TypeScript performs an
unchecked cast; field reads are property accesses). -/
def decodeNode (j : Json) : NodeData where
  id := jsonAsString (j.getField "id")
  type := jsonAsString (j.getField "type")
  position :=
    match j.getField "position" with
    | some p => ⟨jsonAsNum (p.getField "x"), jsonAsNum (p.getField "y")⟩
    | none => ⟨0, 0⟩
  data := jsonAsFields (j.getField "data")

/-- Reading a parsed JSON value back as a `WireData`. -/
def decodeWire (j : Json) : WireData where
  id := jsonAsString (j.getField "id")
  sourceNodeId := jsonAsString (j.getField "sourceNodeId")
  targetNodeId := jsonAsString (j.getField "targetNodeId")
  sourceOutput := jsonAsOptString (j.getField "sourceOutput")
  targetInput := jsonAsOptString (j.getField "targetInput")

/-- Mirror of `utils.ts` `deserializeWorkflow`.  The argument is the result of
`JSON.parse`: `none` models a parse failure (the `catch` branch returns an
empty workflow); `parsed.nodes || []` defaults an absent or non-array `nodes`
field to the empty list, likewise `wires`. -/
def deserializeWorkflow (parsed : Option Json) : WorkflowData :=
  match parsed with
  | none => createWorkflow
  | some j =>
    { nodes :=
        match j.getField "nodes" with
        | some (.arr xs) => xs.map decodeNode
        | _ => []
      wires :=
        match j.getField "wires" with
        | some (.arr xs) => xs.map decodeWire
        | _ => [] }

/-- The absolute-value function `Math.abs`, written as the executable
conditional so that concrete values reduce. -/
def mathAbs (q : Rat) : Rat := if q < 0 then -q else q

/-- The two-argument `Math.min`. -/
def mathMin (a b : Rat) : Rat := if a ≤ b then a else b

/-- The two-argument `Math.max`. -/
def mathMax (a b : Rat) : Rat := if a ≤ b then b else a

/-- Canvas constant `SNAP_THRESHOLD` (8 world units). -/
def SNAP_THRESHOLD : Rat := 8

/-- Canvas constant `NODE_WIDTH` (all nodes are 160 wide). -/
def NODE_WIDTH : Rat := 160

/-- Canvas constant `NODE_HEIGHT` (all nodes are 80 tall). -/
def NODE_HEIGHT : Rat := 80

/-- Guide axis, the `type` field of `AlignmentGuide` in `Canvas.tsx`. -/
inductive GuideKind where
  | vertical : GuideKind
  | horizontal : GuideKind
deriving DecidableEq, Repr

/-- Mirror of the `AlignmentGuide` interface of `Canvas.tsx`.  The source field
named `end` is rendered here as `stop` (`end` is reserved in Lean). -/
structure AlignmentGuide where
  type : GuideKind
  position : Rat
  nodeIds : List String
  start : Rat
  stop : Rat
deriving DecidableEq, Repr

/-- Result of `calculateSnapping`. -/
structure SnapResult where
  snappedPosition : Position
  guides : List AlignmentGuide
deriving DecidableEq, Repr

/-- Accumulator for the loop body of `calculateSnapping`: the mutable
`snappedX`, `snappedY` and `guides` of the source. -/
structure SnapAcc where
  snappedX : Rat
  snappedY : Rat
  guides : List AlignmentGuide
deriving DecidableEq, Repr

/-- Local `draggedCenterX`/`otherCenterX` of `calculateSnapping`. -/
def centerX (n : NodeData) : Rat := n.position.x + NODE_WIDTH / 2

/-- Local `draggedCenterY`/`otherCenterY` of `calculateSnapping`. -/
def centerY (n : NodeData) : Rat := n.position.y + NODE_HEIGHT / 2

/-- Local `draggedLeft`/`otherLeft` of `calculateSnapping`. -/
def leftEdge (n : NodeData) : Rat := n.position.x

/-- Local `draggedRight`/`otherRight` of `calculateSnapping`. -/
def rightEdge (n : NodeData) : Rat := n.position.x + NODE_WIDTH

/-- Local `draggedTop`/`otherTop` of `calculateSnapping`. -/
def topEdge (n : NodeData) : Rat := n.position.y

/-- Local `draggedBottom`/`otherBottom` of `calculateSnapping`. -/
def bottomEdge (n : NodeData) : Rat := n.position.y + NODE_HEIGHT

/-- The vertical guide pushed by the X-axis tests of `calculateSnapping`:
spans the union of both nodes' vertical extents padded by 5. -/
def verticalGuide (draggedNode otherNode : NodeData) (position : Rat) :
    AlignmentGuide where
  type := .vertical
  position := position
  nodeIds := [draggedNode.id, otherNode.id]
  start := mathMin (topEdge draggedNode) (topEdge otherNode) - 5
  stop := mathMax (bottomEdge draggedNode) (bottomEdge otherNode) + 5

/-- The horizontal guide pushed by the Y-axis tests of `calculateSnapping`. -/
def horizontalGuide (draggedNode otherNode : NodeData) (position : Rat) :
    AlignmentGuide where
  type := .horizontal
  position := position
  nodeIds := [draggedNode.id, otherNode.id]
  start := mathMin (leftEdge draggedNode) (leftEdge otherNode) - 5
  stop := mathMax (rightEdge draggedNode) (rightEdge otherNode) + 5

/-- X-axis center-to-center test of `calculateSnapping` (first statement of
the loop body): on a match, assign `snappedX` and push a vertical guide. -/
def stepCenterX (draggedNode otherNode : NodeData) (acc : SnapAcc) : SnapAcc :=
  if mathAbs (centerX draggedNode - centerX otherNode) < SNAP_THRESHOLD then
    { acc with snappedX := otherNode.position.x,
               guides := acc.guides ++
                 [verticalGuide draggedNode otherNode (centerX otherNode)] }
  else acc

/-- X-axis left-edges test (second statement of the loop body). -/
def stepLeft (draggedNode otherNode : NodeData) (acc : SnapAcc) : SnapAcc :=
  if mathAbs (leftEdge draggedNode - leftEdge otherNode) < SNAP_THRESHOLD then
    { acc with snappedX := otherNode.position.x,
               guides := acc.guides ++
                 [verticalGuide draggedNode otherNode (leftEdge otherNode)] }
  else acc

/-- X-axis right-edges test (third statement of the loop body). -/
def stepRight (draggedNode otherNode : NodeData) (acc : SnapAcc) : SnapAcc :=
  if mathAbs (rightEdge draggedNode - rightEdge otherNode) < SNAP_THRESHOLD then
    { acc with snappedX := otherNode.position.x,
               guides := acc.guides ++
                 [verticalGuide draggedNode otherNode (rightEdge otherNode)] }
  else acc

/-- Y-axis center-to-center test (fourth statement of the loop body). -/
def stepCenterY (draggedNode otherNode : NodeData) (acc : SnapAcc) : SnapAcc :=
  if mathAbs (centerY draggedNode - centerY otherNode) < SNAP_THRESHOLD then
    { acc with snappedY := otherNode.position.y,
               guides := acc.guides ++
                 [horizontalGuide draggedNode otherNode (centerY otherNode)] }
  else acc

/-- Y-axis top-edges test (fifth statement of the loop body). -/
def stepTop (draggedNode otherNode : NodeData) (acc : SnapAcc) : SnapAcc :=
  if mathAbs (topEdge draggedNode - topEdge otherNode) < SNAP_THRESHOLD then
    { acc with snappedY := otherNode.position.y,
               guides := acc.guides ++
                 [horizontalGuide draggedNode otherNode (topEdge otherNode)] }
  else acc

/-- Y-axis bottom-edges test (sixth statement of the loop body). -/
def stepBottom (draggedNode otherNode : NodeData) (acc : SnapAcc) : SnapAcc :=
  if mathAbs (bottomEdge draggedNode - bottomEdge otherNode) < SNAP_THRESHOLD then
    { acc with snappedY := otherNode.position.y,
               guides := acc.guides ++
                 [horizontalGuide draggedNode otherNode (bottomEdge otherNode)] }
  else acc

/-- Loop body of `calculateSnapping` for one entry of `otherNodes`: skip the
dragged node itself (`continue`), then run the six axis tests in source order
(X: center, left, right; Y: center, top, bottom). -/
def processOtherNode (draggedNode : NodeData) (acc : SnapAcc)
    (otherNode : NodeData) : SnapAcc :=
  if otherNode.id = draggedNode.id then acc
  else
    stepBottom draggedNode otherNode
      (stepTop draggedNode otherNode
        (stepCenterY draggedNode otherNode
          (stepRight draggedNode otherNode
            (stepLeft draggedNode otherNode
              (stepCenterX draggedNode otherNode acc)))))

/-- Mirror of `Canvas.tsx` `calculateSnapping`: iterates over `otherNodes` in
order, starting from the dragged node's proposed position with no guides. -/
def calculateSnapping (draggedNode : NodeData) (otherNodes : List NodeData) :
    SnapResult :=
  let acc := otherNodes.foldl (processOtherNode draggedNode)
    ⟨draggedNode.position.x, draggedNode.position.y, []⟩
  ⟨⟨acc.snappedX, acc.snappedY⟩, acc.guides⟩

/-- Specification-side predicate: some X-axis test of `calculateSnapping`
matches for this pair of nodes.  (With the fixed node width the three X tests
coincide, but all three are kept as written.) -/
def vMatches (draggedNode otherNode : NodeData) : Bool :=
  decide (mathAbs (centerX draggedNode - centerX otherNode) < SNAP_THRESHOLD) ||
  decide (mathAbs (leftEdge draggedNode - leftEdge otherNode) < SNAP_THRESHOLD) ||
  decide (mathAbs (rightEdge draggedNode - rightEdge otherNode) < SNAP_THRESHOLD)

/-- Specification-side predicate: some Y-axis test matches. -/
def hMatches (draggedNode otherNode : NodeData) : Bool :=
  decide (mathAbs (centerY draggedNode - centerY otherNode) < SNAP_THRESHOLD) ||
  decide (mathAbs (topEdge draggedNode - topEdge otherNode) < SNAP_THRESHOLD) ||
  decide (mathAbs (bottomEdge draggedNode - bottomEdge otherNode) < SNAP_THRESHOLD)

/-- Specification-side list of the guides contributed by one other node:
one guide per matching test, in test order. -/
def nodeGuides (draggedNode otherNode : NodeData) : List AlignmentGuide :=
  (if mathAbs (centerX draggedNode - centerX otherNode) < SNAP_THRESHOLD then
    [verticalGuide draggedNode otherNode (centerX otherNode)] else []) ++
  (if mathAbs (leftEdge draggedNode - leftEdge otherNode) < SNAP_THRESHOLD then
    [verticalGuide draggedNode otherNode (leftEdge otherNode)] else []) ++
  (if mathAbs (rightEdge draggedNode - rightEdge otherNode) < SNAP_THRESHOLD then
    [verticalGuide draggedNode otherNode (rightEdge otherNode)] else []) ++
  (if mathAbs (centerY draggedNode - centerY otherNode) < SNAP_THRESHOLD then
    [horizontalGuide draggedNode otherNode (centerY otherNode)] else []) ++
  (if mathAbs (topEdge draggedNode - topEdge otherNode) < SNAP_THRESHOLD then
    [horizontalGuide draggedNode otherNode (topEdge otherNode)] else []) ++
  (if mathAbs (bottomEdge draggedNode - bottomEdge otherNode) < SNAP_THRESHOLD then
    [horizontalGuide draggedNode otherNode (bottomEdge otherNode)] else [])

/-- An other-node entry that is actually processed (distinct id) and matches
on the X axis. -/
def otherVMatch (draggedNode otherNode : NodeData) : Bool :=
  (otherNode.id != draggedNode.id) && vMatches draggedNode otherNode

/-- An other-node entry that is actually processed and matches on the Y axis. -/
def otherHMatch (draggedNode otherNode : NodeData) : Bool :=
  (otherNode.id != draggedNode.id) && hMatches draggedNode otherNode

/-- Mirror of the workflow update of `Canvas.tsx` `handleNodeChange` (the
function passed to `onWorkflowChange`): snapping is applied only while
dragging, and only the node with the updated id is replaced. -/
def handleNodeChangeWorkflow (prevWorkflow : WorkflowData)
    (updatedNode : NodeData) (isDragging : Bool) : WorkflowData :=
  let otherNodes := prevWorkflow.nodes.filter (fun node => node.id ≠ updatedNode.id)
  let finalNode :=
    if isDragging then
      { updatedNode with
        position := (calculateSnapping updatedNode otherNodes).snappedPosition }
    else updatedNode
  { prevWorkflow with
    nodes := prevWorkflow.nodes.map
      (fun node => if node.id = updatedNode.id then finalNode else node) }

/-- Handle kind, the `'input' | 'output'` union of the source. -/
inductive HandleType where
  | input : HandleType
  | output : HandleType
deriving DecidableEq, Repr

/-- Mirror of the `ConnectionState` interface of `Canvas.tsx`. -/
structure ConnectionState where
  isConnecting : Bool
  sourceNodeId : Option String
  sourceType : Option HandleType
  sourceIndex : Option Nat
  currentPosition : Option Position
  hasMouseMoved : Bool
deriving DecidableEq, Repr

/-- The all-cleared connection state the source resets to. -/
def idleConnectionState : ConnectionState where
  isConnecting := false
  sourceNodeId := none
  sourceType := none
  sourceIndex := none
  currentPosition := none
  hasMouseMoved := false

/-- The `newWire` record built by `handleEndConnection`: orientation is
normalized by `isSourceOutput`, and handle indices are serialized with
`toString` (the optional-chaining `sourceIndex?.toString()` yields
`undefined` when `sourceIndex` is `null`). -/
def newWireOf (wireId : String) (connectionState : ConnectionState)
    (nodeId : String) (index : Nat) : WireData :=
  let isSourceOutput := connectionState.sourceType = some .output
  { id := wireId
    sourceNodeId :=
      if isSourceOutput then connectionState.sourceNodeId.getD "" else nodeId
    targetNodeId :=
      if isSourceOutput then nodeId else connectionState.sourceNodeId.getD ""
    sourceOutput :=
      if isSourceOutput then connectionState.sourceIndex.map toString
      else some (toString index)
    targetInput :=
      if isSourceOutput then some (toString index)
      else connectionState.sourceIndex.map toString }

/-- The duplicate test of `handleEndConnection`: same
(sourceNodeId, targetNodeId, sourceOutput, targetInput) tuple. -/
def wireMatchesTuple (wire newWire : WireData) : Bool :=
  wire.sourceNodeId == newWire.sourceNodeId &&
  wire.targetNodeId == newWire.targetNodeId &&
  wire.sourceOutput == newWire.sourceOutput &&
  wire.targetInput == newWire.targetInput

/-- Mirror of `Canvas.tsx` `handleEndConnection`, as a pure function from the
connection state, the released-on handle `(nodeId, type, index)` and the
current workflow to the next workflow and connection state.  `wireId` stands
for the freshly generated random id. -/
def handleEndConnection (wireId : String) (connectionState : ConnectionState)
    (nodeId : String) (type : HandleType) (index : Nat)
    (prevWorkflow : WorkflowData) : WorkflowData × ConnectionState :=
  if ¬connectionState.isConnecting ∨ connectionState.sourceNodeId = none then
    (prevWorkflow, connectionState)
  else if connectionState.sourceNodeId = some nodeId ∨
      connectionState.sourceType = some type then
    (prevWorkflow, idleConnectionState)
  else
    let newWire := newWireOf wireId connectionState nodeId index
    let wireExists := prevWorkflow.wires.any (fun wire => wireMatchesTuple wire newWire)
    let nextWorkflow :=
      if wireExists then prevWorkflow
      else { prevWorkflow with wires := prevWorkflow.wires ++ [newWire] }
    (nextWorkflow, idleConnectionState)

/-- Mirror of the `viewportTransform` state `{ x, y, scale }`. -/
structure ViewportTransform where
  x : Rat
  y : Rat
  scale : Rat
deriving DecidableEq, Repr

/-- Payload of the `onRequestNodeCreation` callback. -/
structure NodeCreationRequest where
  sourceNodeId : String
  sourceType : HandleType
  sourceIndex : Nat
  position : Position
deriving DecidableEq, Repr

/-- Observable outcome of `handleCanvasClick`: the next connection state, the
node-creation requests raised (in order), and whether the selection was
cleared. -/
structure ClickResult where
  connection : ConnectionState
  requests : List NodeCreationRequest
  selectionCleared : Bool
deriving DecidableEq, Repr

/-- Mirror of `Canvas.tsx` `handleCanvasClick`.  `targetIsBackground` is the
`target === canvasRef.current || target.tagName === 'svg'` test;
`hasRequestCallback` is the presence of the optional `onRequestNodeCreation`
prop; the bounding rectangle of the mounted canvas element always exists and
is passed as `(rectLeft, rectTop)`.  The `sourceNodeId!`-style non-null
assertions are rendered with `Option.getD`. -/
def handleCanvasClick (connectionState : ConnectionState) (isPanning : Bool)
    (viewportTransform : ViewportTransform) (hasRequestCallback : Bool)
    (targetIsBackground : Bool) (clientX clientY rectLeft rectTop : Rat) :
    ClickResult :=
  if isPanning then ⟨connectionState, [], false⟩
  else if targetIsBackground then
    if connectionState.isConnecting && connectionState.hasMouseMoved &&
        hasRequestCallback then
      let canvasX := (clientX - rectLeft - viewportTransform.x) / viewportTransform.scale
      let canvasY := (clientY - rectTop - viewportTransform.y) / viewportTransform.scale
      ⟨{ connectionState with currentPosition := some ⟨canvasX, canvasY⟩ },
       [⟨connectionState.sourceNodeId.getD "",
         connectionState.sourceType.getD .output,
         connectionState.sourceIndex.getD 0, ⟨canvasX, canvasY⟩⟩], true⟩
    else ⟨connectionState, [], true⟩
  else ⟨connectionState, [], false⟩

/-- The render guard for the temporary connection wire (`Canvas.tsx`, the
`connectionState.isConnecting && currentPosition && sourceNodeId &&
sourceIndex !== null && hasMouseMoved` conjunction). -/
def tempWireVisible (connectionState : ConnectionState) : Bool :=
  connectionState.isConnecting && connectionState.currentPosition.isSome &&
  connectionState.sourceNodeId.isSome && connectionState.sourceIndex.isSome &&
  connectionState.hasMouseMoved

/-- Mirror of `Canvas.tsx` `zoomIn`: step the scale by +0.2 capped at 3, snap
to exactly 1 when within 0.1 of 1, and re-anchor the transform on the content
center when the scale changed. -/
def zoomIn (viewportTransform : ViewportTransform) (contentCenter : Position) :
    ViewportTransform :=
  let stepped := mathMin 3 (viewportTransform.scale + 0.2)
  let newScale := if mathAbs (stepped - 1) < 0.1 then 1 else stepped
  if newScale = viewportTransform.scale then viewportTransform
  else
    let scaleDelta := newScale / viewportTransform.scale
    { x := contentCenter.x - (contentCenter.x - viewportTransform.x) * scaleDelta
      y := contentCenter.y - (contentCenter.y - viewportTransform.y) * scaleDelta
      scale := newScale }

/-- Mirror of `Canvas.tsx` `zoomOut`: step the scale by -0.2 floored at 0.1,
with the same snap-to-1 rule. -/
def zoomOut (viewportTransform : ViewportTransform) (contentCenter : Position) :
    ViewportTransform :=
  let stepped := mathMax 0.1 (viewportTransform.scale - 0.2)
  let newScale := if mathAbs (stepped - 1) < 0.1 then 1 else stepped
  if newScale = viewportTransform.scale then viewportTransform
  else
    let scaleDelta := newScale / viewportTransform.scale
    { x := contentCenter.x - (contentCenter.x - viewportTransform.x) * scaleDelta
      y := contentCenter.y - (contentCenter.y - viewportTransform.y) * scaleDelta
      scale := newScale }

/-- The `newScale` computed by `Canvas.tsx` `handleWheel`: clamped to
[0.1, 3], with no snap-to-1 step.  `zoomFactor` abstracts the
platform-specific sensitivity; `deltaYPositive` is the sign test
`event.deltaY > 0`. -/
def handleWheelNewScale (scale zoomFactor : Rat) (deltaYPositive : Bool) : Rat :=
  let zoomDirection : Rat := if deltaYPositive then -1 else 1
  mathMax 0.1 (mathMin 3 (scale + zoomDirection * zoomFactor))

/-- Node A of the cascade-deletion example. -/
def exNodeA : NodeData := ⟨"A", "action", ⟨100, 100⟩, []⟩

/-- Node B of the cascade-deletion example. -/
def exNodeB : NodeData := ⟨"B", "action", ⟨400, 100⟩, []⟩

/-- Node C of the cascade-deletion example. -/
def exNodeC : NodeData := ⟨"C", "action", ⟨700, 100⟩, []⟩

/-- Wire A→B of the cascade-deletion example. -/
def exWireAB : WireData := ⟨"w1", "A", "B", some "0", some "0"⟩

/-- Wire B→C of the cascade-deletion example. -/
def exWireBC : WireData := ⟨"w2", "B", "C", some "0", some "0"⟩

/-- Workflow with nodes A, B, C and wires A→B, B→C. -/
def exWorkflowABC : WorkflowData := ⟨[exNodeA, exNodeB, exNodeC], [exWireAB, exWireBC]⟩

/-- Node A of the snap example, at (100, 100). -/
def snapNodeA : NodeData := ⟨"A", "action", ⟨100, 100⟩, []⟩

/-- Node B of the snap example, dragged to the proposed position (102, 300). -/
def snapNodeB : NodeData := ⟨"B", "action", ⟨102, 300⟩, []⟩

/-- Connection draft of the C2 witness: the drag started on input handle 2 of
node A. -/
def c2Draft : ConnectionState := ⟨true, some "A", some .input, some 2, some ⟨0, 0⟩, true⟩

/-- Connection draft of the C3 witness: drag from output handle 1 of node A,
moved. -/
def c3Draft : ConnectionState := ⟨true, some "A", some .output, some 1, some ⟨0, 0⟩, true⟩

/-- Active connection draft that has not moved: pointer went down on output
handle 0 of node A, `hasMouseMoved` is still false. -/
def c9Draft : ConnectionState := ⟨true, some "A", some .output, some 0, some ⟨0, 0⟩, false⟩

/-- First other node of the last-match example: x = 3, within threshold. -/
def lastNodeA : NodeData := ⟨"a", "action", ⟨3, 200⟩, []⟩

/-- Second other node of the last-match example: x = 5, also within
threshold but farther than `lastNodeA`. -/
def lastNodeB : NodeData := ⟨"b", "action", ⟨5, 400⟩, []⟩

/-- Dragged node of the last-match example, proposed at the origin. -/
def lastDragged : NodeData := ⟨"d", "action", ⟨0, 0⟩, []⟩

/-- Moved draft out of output handle 0 of node A, for the C1 witness. -/
def c1Draft : ConnectionState := ⟨true, some "A", some .output, some 0, some ⟨0, 0⟩, true⟩

/-- Workflow of the C10 witness: nodes A and B joined by one wire. -/
def c10Workflow : WorkflowData :=
  ⟨[⟨"A", "action", ⟨0, 0⟩, []⟩, ⟨"B", "action", ⟨100, 100⟩, []⟩],
   [⟨"w1", "A", "B", some "0", some "0"⟩]⟩

/-- Drag update of the C10 witness: node A proposed at (97, 100). -/
def c10Update : NodeData := ⟨"A", "action", ⟨97, 100⟩, []⟩

lemma decodeNode_encodeNode (n : NodeData) : decodeNode (encodeNode n) = n := by
  cases n with
  | mk id type position data => cases position with
    | mk x y => rfl

lemma decodeWire_encodeWire (w : WireData) : decodeWire (encodeWire w) = w := by
  cases w with
  | mk id s t so ti => cases so <;> cases ti <;> rfl

lemma map_decode_encode_nodes (l : List NodeData) :
    (l.map encodeNode).map decodeNode = l := by
  induction l with
  | nil => rfl
  | cons a l ih => simp [decodeNode_encodeNode, ih]

lemma map_decode_encode_wires (l : List WireData) :
    (l.map encodeWire).map decodeWire = l := by
  induction l with
  | nil => rfl
  | cons a l ih => simp [decodeWire_encodeWire, ih]

/-- C5: For every well-formed Workflow W (every `WorkflowData` of the document
model, all of which are JSON-representable), deserializing the serialized form
of W yields W: the serialize-then-deserialize round trip is the identity. -/
theorem deserialize_serialize_roundtrip (w : WorkflowData) :
    deserializeWorkflow (some (serializeWorkflow w)) = w := by
  cases w with
  | mk nodes wires =>
    show WorkflowData.mk ((nodes.map encodeNode).map decodeNode)
        ((wires.map encodeWire).map decodeWire) = WorkflowData.mk nodes wires
    rw [map_decode_encode_nodes, map_decode_encode_wires]

/-- C4: deleting node n yields exactly the nodes other than n and exactly the
wires touching neither endpoint n, in a single immutable update (the canvas
`handleNodeDelete` update coincides with `removeNodeFromWorkflow`, so no
intermediate state with a dangling wire is observable); concretely, deleting B
from nodes A, B, C wired A→B, B→C leaves nodes A, C and no wires. -/
theorem removeNode_cascades :
    (∀ (w : WorkflowData) (nodeId : String),
      handleNodeDeleteWorkflow w nodeId = removeNodeFromWorkflow w nodeId ∧
      (∀ m : NodeData, m ∈ (removeNodeFromWorkflow w nodeId).nodes ↔
        m ∈ w.nodes ∧ m.id ≠ nodeId) ∧
      (∀ wi : WireData, wi ∈ (removeNodeFromWorkflow w nodeId).wires ↔
        wi ∈ w.wires ∧ wi.sourceNodeId ≠ nodeId ∧ wi.targetNodeId ≠ nodeId)) ∧
    (removeNodeFromWorkflow exWorkflowABC "B").nodes = [exNodeA, exNodeC] ∧
    (removeNodeFromWorkflow exWorkflowABC "B").wires = [] := by
  refine ⟨fun w nodeId => ⟨rfl, fun m => ?_, fun wi => ?_⟩, ?_, ?_⟩
  · simp [removeNodeFromWorkflow, List.mem_filter]
  · simp [removeNodeFromWorkflow, List.mem_filter]
  · simp [removeNodeFromWorkflow, exWorkflowABC, exNodeA, exNodeB, exNodeC]
  · simp [removeNodeFromWorkflow, exWorkflowABC, exWireAB, exWireBC]

/-- C7: with A at (100,100) and B dragged to (102,300) (left edges 2 < 8
apart), the snapping computation returns snapped x exactly 100 for B, and its
guide list contains a vertical guide at position 100 spanning 95 to 385 that
names both node ids. -/
theorem snap_example_left_edges :
    (calculateSnapping snapNodeB [snapNodeA]).snappedPosition.x = 100 ∧
    (⟨.vertical, 100, ["B", "A"], 95, 385⟩ : AlignmentGuide) ∈
      (calculateSnapping snapNodeB [snapNodeA]).guides := by
  norm_num [calculateSnapping, processOtherNode, stepCenterX, stepLeft,
    stepRight, stepCenterY, stepTop, stepBottom, snapNodeA, snapNodeB,
    centerX, centerY, leftEdge, rightEdge, topEdge, bottomEdge,
    verticalGuide, horizontalGuide, mathAbs, mathMin, mathMax,
    SNAP_THRESHOLD, NODE_WIDTH, NODE_HEIGHT]
  decide

/-- C6: the zoom-in control sets the scale to min(3, s + 0.2) and zoom-out to
max(0.1, s - 0.2), in each case replaced by exactly 1 when the stepped result
lies within 0.1 of 1; the continuous wheel path clamps to [0.1, 3] and applies
no snap; zoom-in from 1 yields 1.2 and zoom-out from 1.05 yields 0.85 (and a
wheel result of 0.95, within 0.1 of 1, is left unsnapped). -/
theorem zoom_step_snaps_wheel_clamps :
    (∀ (vt : ViewportTransform) (cc : Position),
      (zoomIn vt cc).scale =
        (if mathAbs (mathMin 3 (vt.scale + 0.2) - 1) < 0.1 then 1
         else mathMin 3 (vt.scale + 0.2)) ∧
      (zoomOut vt cc).scale =
        (if mathAbs (mathMax 0.1 (vt.scale - 0.2) - 1) < 0.1 then 1
         else mathMax 0.1 (vt.scale - 0.2))) ∧
    (∀ (scale zoomFactor : Rat) (deltaYPositive : Bool),
      0.1 ≤ handleWheelNewScale scale zoomFactor deltaYPositive ∧
      handleWheelNewScale scale zoomFactor deltaYPositive ≤ 3 ∧
      handleWheelNewScale scale zoomFactor deltaYPositive =
        mathMax 0.1 (mathMin 3
          (scale + (if deltaYPositive then -1 else 1) * zoomFactor))) ∧
    (zoomIn ⟨0, 0, 1⟩ ⟨0, 0⟩).scale = 1.2 ∧
    (zoomOut ⟨0, 0, 1.05⟩ ⟨0, 0⟩).scale = 0.85 ∧
    handleWheelNewScale 1.05 0.1 true = 0.95 ∧
    mathAbs (0.95 - 1) < 0.1 ∧ ¬ handleWheelNewScale 1.05 0.1 true = 1 := by
  refine ⟨fun vt cc => ⟨?_, ?_⟩, fun s f d => ⟨?_, ?_, rfl⟩, ?_, ?_, ?_, ?_, ?_⟩
  · simp only [zoomIn]
    split_ifs with h1 <;> simp_all
  · simp only [zoomOut]
    split_ifs with h1 <;> simp_all
  · simp only [handleWheelNewScale, mathMax, mathMin]
    split_ifs <;> first | assumption | linarith
  · simp only [handleWheelNewScale, mathMax, mathMin]
    split_ifs <;> first | assumption | linarith
  · norm_num [zoomIn, mathMin, mathAbs]
  · norm_num [zoomOut, mathMax, mathAbs]
  · norm_num [handleWheelNewScale, mathMax, mathMin]
  · norm_num [mathAbs]
  · norm_num [handleWheelNewScale, mathMax, mathMin]

/-- C2: for every wire created by completing a connection gesture (release on
an opposite-type handle of a different node), the wire's sourceNodeId is the
node whose output handle participates and targetNodeId the input side, with
sourceOutput/targetInput the corresponding handle indices as strings,
regardless of which handle the drag started on; and that wire is exactly the
one appended to the workflow when no duplicate exists. -/
theorem wire_orientation_normalized (wireId : String) (cs : ConnectionState)
    (nodeId : String) (t : HandleType) (index : Nat) (w : WorkflowData)
    (s : String) (srcType : HandleType) (i : Nat)
    (hconn : cs.isConnecting = true)
    (hsrc : cs.sourceNodeId = some s)
    (hty : cs.sourceType = some srcType)
    (hidx : cs.sourceIndex = some i)
    (hdiff : s ≠ nodeId)
    (hopp : srcType ≠ t) :
    ((srcType = .output ∧ t = .input ∧
       (newWireOf wireId cs nodeId index).sourceNodeId = s ∧
       (newWireOf wireId cs nodeId index).targetNodeId = nodeId ∧
       (newWireOf wireId cs nodeId index).sourceOutput = some (toString i) ∧
       (newWireOf wireId cs nodeId index).targetInput = some (toString index)) ∨
     (srcType = .input ∧ t = .output ∧
       (newWireOf wireId cs nodeId index).sourceNodeId = nodeId ∧
       (newWireOf wireId cs nodeId index).targetNodeId = s ∧
       (newWireOf wireId cs nodeId index).sourceOutput = some (toString index) ∧
       (newWireOf wireId cs nodeId index).targetInput = some (toString i))) ∧
    ((w.wires.all (fun wire => ¬ wireMatchesTuple wire (newWireOf wireId cs nodeId index))) →
      (handleEndConnection wireId cs nodeId t index w).1.wires
        = w.wires ++ [newWireOf wireId cs nodeId index]) := by
  constructor
  · cases srcType <;> cases t <;> simp_all [newWireOf]
  · intro hall
    have hany : w.wires.any
        (fun wire => wireMatchesTuple wire (newWireOf wireId cs nodeId index)) = false := by
      simp only [List.any_eq_false]
      intro x hx
      have := (List.all_eq_true.mp hall) x hx
      simpa using this
    simp [handleEndConnection, hconn, hsrc, hty, hidx, hany, hdiff]
    rw [if_neg hopp]

/-- Witness for C2: starting the drag on an input handle and releasing on
output handle 1 of node B yields a wire oriented B → A. -/
theorem wire_orientation_normalized_witness :
    (newWireOf "w1" c2Draft "B" 1).sourceNodeId = "B" ∧
    (newWireOf "w1" c2Draft "B" 1).targetNodeId = "A" ∧
    (newWireOf "w1" c2Draft "B" 1).sourceOutput = some "1" ∧
    (newWireOf "w1" c2Draft "B" 1).targetInput = some "2" := by
  have h := wire_orientation_normalized "w1" c2Draft "B" .output 1 ⟨[], []⟩ "A" .input 2
    rfl rfl rfl rfl (by decide) (by decide)
  rcases h.1 with ⟨hcase, _⟩ | ⟨_, _, h1, h2, h3, h4⟩
  · exact absurd hcase (by decide)
  · exact ⟨h1, h2, h3, h4⟩

/-- Two `newWire` records built from the same draft and target differ at most
in their fresh id, so they match each other's tuple. -/
lemma newWireOf_self_tuple (wireId wireId2 : String) (cs : ConnectionState)
    (nodeId : String) (index : Nat) :
    wireMatchesTuple (newWireOf wireId cs nodeId index)
      (newWireOf wireId2 cs nodeId index) = true := by
  simp [wireMatchesTuple, newWireOf]

/-- C3: completing a connection whose normalized tuple already matches an
existing wire leaves the wires list unchanged (no error) and returns the
connection state to Idle; otherwise exactly one new wire with that tuple is
appended; hence issuing the same connection twice from a workflow with no
matching wire leaves exactly one matching wire. -/
theorem duplicate_connection_deduplicated (wireId wireId2 : String)
    (cs : ConnectionState) (nodeId : String) (t : HandleType) (index : Nat)
    (w : WorkflowData) (s : String) (srcType : HandleType) (i : Nat)
    (hconn : cs.isConnecting = true)
    (hsrc : cs.sourceNodeId = some s)
    (hty : cs.sourceType = some srcType)
    (hidx : cs.sourceIndex = some i)
    (hdiff : s ≠ nodeId)
    (hopp : srcType ≠ t) :
    ((∃ wire ∈ w.wires,
        wireMatchesTuple wire (newWireOf wireId cs nodeId index) = true) →
      (handleEndConnection wireId cs nodeId t index w).1.wires = w.wires ∧
      (handleEndConnection wireId cs nodeId t index w).2 = idleConnectionState) ∧
    ((¬ ∃ wire ∈ w.wires,
        wireMatchesTuple wire (newWireOf wireId cs nodeId index) = true) →
      (handleEndConnection wireId cs nodeId t index w).1.wires
        = w.wires ++ [newWireOf wireId cs nodeId index] ∧
      (handleEndConnection wireId cs nodeId t index w).2 = idleConnectionState) ∧
    ((w.wires.filter
        (fun wire => wireMatchesTuple wire (newWireOf wireId cs nodeId index))).length = 0 →
      ((handleEndConnection wireId2 cs nodeId t index
          (handleEndConnection wireId cs nodeId t index w).1).1.wires.filter
        (fun wire => wireMatchesTuple wire (newWireOf wireId cs nodeId index))).length = 1) := by
  have habortFalse : ¬(cs.sourceNodeId = some nodeId ∨ cs.sourceType = some t) := by
    simp only [hsrc, hty, Option.some.injEq]
    exact not_or.mpr ⟨hdiff, hopp⟩
  have hactive : ¬(¬cs.isConnecting = true ∨ cs.sourceNodeId = none) := by
    simp [hconn, hsrc]
  have hrunT : ∀ (wid : String) (w' : WorkflowData),
      (w'.wires.any
          (fun wire => wireMatchesTuple wire (newWireOf wid cs nodeId index))) = true →
      handleEndConnection wid cs nodeId t index w' = (w', idleConnectionState) := by
    intro wid w' h
    simp only [handleEndConnection]
    rw [if_neg hactive, if_neg habortFalse, if_pos h]
  have hrunF : ∀ (wid : String) (w' : WorkflowData),
      (w'.wires.any
          (fun wire => wireMatchesTuple wire (newWireOf wid cs nodeId index))) = false →
      handleEndConnection wid cs nodeId t index w' =
        ({ w' with wires := w'.wires ++ [newWireOf wid cs nodeId index] },
         idleConnectionState) := by
    intro wid w' h
    simp only [handleEndConnection]
    rw [if_neg hactive, if_neg habortFalse, if_neg (by simp [h])]
  refine ⟨?_, ?_, ?_⟩
  · intro hex
    have hany : (w.wires.any
        (fun wire => wireMatchesTuple wire (newWireOf wireId cs nodeId index))) = true :=
      List.any_eq_true.mpr (by
        obtain ⟨wire, hmem, hmatch⟩ := hex
        exact ⟨wire, hmem, hmatch⟩)
    rw [hrunT wireId w hany]
    exact ⟨rfl, rfl⟩
  · intro hnex
    have hany : (w.wires.any
        (fun wire => wireMatchesTuple wire (newWireOf wireId cs nodeId index))) = false := by
      rw [List.any_eq_false]
      intro wire hmem
      simp only [Bool.not_eq_true]
      by_contra hmatch
      exact hnex ⟨wire, hmem, by simpa using hmatch⟩
    rw [hrunF wireId w hany]
    exact ⟨rfl, rfl⟩
  · intro hcount
    have hnil : (w.wires.filter
        (fun wire => wireMatchesTuple wire (newWireOf wireId cs nodeId index))) = [] :=
      List.length_eq_zero.mp hcount
    have hnomatch : ∀ wire ∈ w.wires,
        wireMatchesTuple wire (newWireOf wireId cs nodeId index) = false := by
      intro wire hmem
      by_contra hmatch
      have hmem2 : wire ∈ w.wires.filter
          (fun wire => wireMatchesTuple wire (newWireOf wireId cs nodeId index)) := by
        rw [List.mem_filter]
        exact ⟨hmem, by simpa using hmatch⟩
      rw [hnil] at hmem2
      exact absurd hmem2 (List.not_mem_nil wire)
    have hany1 : (w.wires.any
        (fun wire => wireMatchesTuple wire (newWireOf wireId cs nodeId index))) = false := by
      rw [List.any_eq_false]
      intro wire hmem
      simp [hnomatch wire hmem]
    have hfirst : (handleEndConnection wireId cs nodeId t index w).1
        = { w with wires := w.wires ++ [newWireOf wireId cs nodeId index] } := by
      rw [hrunF wireId w hany1]
    have hany2 : ((w.wires ++ [newWireOf wireId cs nodeId index]).any
        (fun wire => wireMatchesTuple wire (newWireOf wireId2 cs nodeId index))) = true := by
      rw [List.any_eq_true]
      exact ⟨newWireOf wireId cs nodeId index, by simp,
        newWireOf_self_tuple wireId wireId2 cs nodeId index⟩
    have hsecond : (handleEndConnection wireId2 cs nodeId t index
        (handleEndConnection wireId cs nodeId t index w).1).1
        = { w with wires := w.wires ++ [newWireOf wireId cs nodeId index] } := by
      rw [hfirst, hrunT wireId2 _ hany2]
    rw [hsecond]
    show ((w.wires ++ [newWireOf wireId cs nodeId index]).filter _).length = 1
    rw [List.filter_append, hnil]
    simp [newWireOf_self_tuple wireId wireId cs nodeId index]

/-- Witness for C3: two identical B-input releases from draft out of node A on
the empty workflow leave exactly one matching wire. -/
theorem duplicate_connection_deduplicated_witness :
    ((handleEndConnection "w2" c3Draft "B" .input 0
        (handleEndConnection "w1" c3Draft "B" .input 0 ⟨[], []⟩).1).1.wires.filter
      (fun wire => wireMatchesTuple wire (newWireOf "w1" c3Draft "B" 0))).length = 1 :=
  (duplicate_connection_deduplicated "w1" "w2" c3Draft "B" .input 0 ⟨[], []⟩ "A" .output 1
    rfl rfl rfl rfl (by decide) (by decide)).2.2 (by rfl)

/-- Counterexample to C9 as stated: an active draft with hasMoved = false,
released on input handle 0 of the distinct node B, still creates a wire —
`handleEndConnection` never consults `hasMouseMoved`. -/
theorem release_without_move_still_wires :
    c9Draft.hasMouseMoved = false ∧
    (handleEndConnection "w1" c9Draft "B" .input 0 ⟨[], []⟩).1.wires.length = 1 := by
  exact ⟨rfl, rfl⟩

/-- C9 (amended): with hasMoved = false, releasing the pointer on a handle of
the source node itself or on a handle of the source's own type ends the
gesture in Idle without adding any wire; in particular a plain click with no
movement — whose release lands on the source handle, hence the same node —
never produces a wire. -/
theorem no_wire_on_same_node_or_type (wireId : String) (cs : ConnectionState)
    (nodeId : String) (t : HandleType) (index : Nat) (w : WorkflowData)
    (s : String)
    (hconn : cs.isConnecting = true)
    (hsrc : cs.sourceNodeId = some s)
    (hmoved : cs.hasMouseMoved = false)
    (habort : cs.sourceNodeId = some nodeId ∨ cs.sourceType = some t) :
    (handleEndConnection wireId cs nodeId t index w).1 = w ∧
    (handleEndConnection wireId cs nodeId t index w).2 = idleConnectionState := by
  have hactive : ¬(¬cs.isConnecting = true ∨ cs.sourceNodeId = none) := by
    simp [hconn, hsrc]
  simp only [handleEndConnection]
  rw [if_neg hactive, if_pos habort]
  exact ⟨rfl, rfl⟩

/-- Witness for C9's amended theorem: releasing back on node A itself leaves
the empty workflow unchanged and resets to Idle. -/
theorem no_wire_on_same_node_or_type_witness :
    (handleEndConnection "w1" c9Draft "A" .input 0 ⟨[], []⟩).1 = ⟨[], []⟩ ∧
    (handleEndConnection "w1" c9Draft "A" .input 0 ⟨[], []⟩).2 = idleConnectionState :=
  no_wire_on_same_node_or_type "w1" c9Draft "A" .input 0 ⟨[], []⟩ "A" rfl rfl rfl (Or.inl rfl)

/-- Explicit form of `stepCenterX`: its effect on each accumulator field. -/
lemma stepCenterX_spec (d o : NodeData) (acc : SnapAcc) :
    stepCenterX d o acc =
      ⟨if mathAbs (centerX d - centerX o) < SNAP_THRESHOLD then o.position.x
        else acc.snappedX,
       acc.snappedY,
       acc.guides ++
        (if mathAbs (centerX d - centerX o) < SNAP_THRESHOLD then
          [verticalGuide d o (centerX o)] else [])⟩ := by
  unfold stepCenterX
  split_ifs <;> simp

/-- Explicit form of `stepLeft`. -/
lemma stepLeft_spec (d o : NodeData) (acc : SnapAcc) :
    stepLeft d o acc =
      ⟨if mathAbs (leftEdge d - leftEdge o) < SNAP_THRESHOLD then o.position.x
        else acc.snappedX,
       acc.snappedY,
       acc.guides ++
        (if mathAbs (leftEdge d - leftEdge o) < SNAP_THRESHOLD then
          [verticalGuide d o (leftEdge o)] else [])⟩ := by
  unfold stepLeft
  split_ifs <;> simp

/-- Explicit form of `stepRight`. -/
lemma stepRight_spec (d o : NodeData) (acc : SnapAcc) :
    stepRight d o acc =
      ⟨if mathAbs (rightEdge d - rightEdge o) < SNAP_THRESHOLD then o.position.x
        else acc.snappedX,
       acc.snappedY,
       acc.guides ++
        (if mathAbs (rightEdge d - rightEdge o) < SNAP_THRESHOLD then
          [verticalGuide d o (rightEdge o)] else [])⟩ := by
  unfold stepRight
  split_ifs <;> simp

/-- Explicit form of `stepCenterY`. -/
lemma stepCenterY_spec (d o : NodeData) (acc : SnapAcc) :
    stepCenterY d o acc =
      ⟨acc.snappedX,
       if mathAbs (centerY d - centerY o) < SNAP_THRESHOLD then o.position.y
        else acc.snappedY,
       acc.guides ++
        (if mathAbs (centerY d - centerY o) < SNAP_THRESHOLD then
          [horizontalGuide d o (centerY o)] else [])⟩ := by
  unfold stepCenterY
  split_ifs <;> simp

/-- Explicit form of `stepTop`. -/
lemma stepTop_spec (d o : NodeData) (acc : SnapAcc) :
    stepTop d o acc =
      ⟨acc.snappedX,
       if mathAbs (topEdge d - topEdge o) < SNAP_THRESHOLD then o.position.y
        else acc.snappedY,
       acc.guides ++
        (if mathAbs (topEdge d - topEdge o) < SNAP_THRESHOLD then
          [horizontalGuide d o (topEdge o)] else [])⟩ := by
  unfold stepTop
  split_ifs <;> simp

/-- Explicit form of `stepBottom`. -/
lemma stepBottom_spec (d o : NodeData) (acc : SnapAcc) :
    stepBottom d o acc =
      ⟨acc.snappedX,
       if mathAbs (bottomEdge d - bottomEdge o) < SNAP_THRESHOLD then o.position.y
        else acc.snappedY,
       acc.guides ++
        (if mathAbs (bottomEdge d - bottomEdge o) < SNAP_THRESHOLD then
          [horizontalGuide d o (bottomEdge o)] else [])⟩ := by
  unfold stepBottom
  split_ifs <;> simp

/-- An other-node entry with the dragged node's own id is skipped. -/
lemma processOtherNode_skip (d o : NodeData) (acc : SnapAcc) (h : o.id = d.id) :
    processOtherNode d acc o = acc := by
  simp [processOtherNode, h]

/-- Combined effect of the six tests on one processed other node: each axis
coordinate is overwritten exactly when some test on that axis matches, and the
node's guides are appended in test order. -/
lemma processOtherNode_step (d o : NodeData) (acc : SnapAcc) (h : ¬o.id = d.id) :
    processOtherNode d acc o =
      ⟨if vMatches d o then o.position.x else acc.snappedX,
       if hMatches d o then o.position.y else acc.snappedY,
       acc.guides ++ nodeGuides d o⟩ := by
  simp only [processOtherNode, if_neg h, stepCenterX_spec, stepLeft_spec,
    stepRight_spec, stepCenterY_spec, stepTop_spec, stepBottom_spec]
  simp only [SnapAcc.mk.injEq]
  refine ⟨?_, ?_, ?_⟩
  · by_cases c1 : mathAbs (centerX d - centerX o) < SNAP_THRESHOLD <;>
      by_cases c2 : mathAbs (leftEdge d - leftEdge o) < SNAP_THRESHOLD <;>
        by_cases c3 : mathAbs (rightEdge d - rightEdge o) < SNAP_THRESHOLD <;>
          simp [vMatches, c1, c2, c3]
  · by_cases c1 : mathAbs (centerY d - centerY o) < SNAP_THRESHOLD <;>
      by_cases c2 : mathAbs (topEdge d - topEdge o) < SNAP_THRESHOLD <;>
        by_cases c3 : mathAbs (bottomEdge d - bottomEdge o) < SNAP_THRESHOLD <;>
          simp [hMatches, c1, c2, c3]
  · simp [nodeGuides, List.append_assoc]

/-- The guide list of the whole loop is the concatenation, in iteration
order, of each processed node's per-test guides. -/
lemma foldl_guides (d : NodeData) (ns : List NodeData) (acc : SnapAcc) :
    (ns.foldl (processOtherNode d) acc).guides
      = acc.guides ++ (ns.filter (fun o => o.id != d.id)).flatMap (nodeGuides d) := by
  induction ns generalizing acc with
  | nil => simp
  | cons o ns ih =>
    by_cases h : o.id = d.id
    · rw [List.foldl_cons, processOtherNode_skip d o acc h, ih]
      simp [List.filter_cons, h]
    · rw [List.foldl_cons, processOtherNode_step d o acc h, ih]
      simp [List.filter_cons, h]

/-- The final snapped x is the x of the last (in iteration order) processed
node with an X-axis match, or the initial value when none matches. -/
lemma foldl_snappedX (d : NodeData) (ns : List NodeData) (acc : SnapAcc) :
    (ns.foldl (processOtherNode d) acc).snappedX
      = ((ns.reverse.find? (otherVMatch d)).map (fun o => o.position.x)).getD
          acc.snappedX := by
  induction ns using List.reverseRecOn with
  | nil => simp
  | append_singleton l o ih =>
    rw [List.foldl_append, List.foldl_cons, List.foldl_nil, List.reverse_append]
    simp only [List.reverse_cons, List.reverse_nil, List.nil_append,
      List.singleton_append]
    by_cases h : o.id = d.id
    · rw [processOtherNode_skip d o _ h]
      rw [List.find?_cons_of_neg _ (by simp [otherVMatch, h])]
      exact ih
    · rw [processOtherNode_step d o _ h]
      by_cases hv : vMatches d o = true
      · rw [List.find?_cons_of_pos _ (by simp [otherVMatch, h, hv])]
        simp [hv]
      · rw [List.find?_cons_of_neg _ (by simp [otherVMatch, hv])]
        simp only [Bool.not_eq_true] at hv
        simp [hv, ih]

/-- The final snapped y is the y of the last processed node with a Y-axis
match, or the initial value. -/
lemma foldl_snappedY (d : NodeData) (ns : List NodeData) (acc : SnapAcc) :
    (ns.foldl (processOtherNode d) acc).snappedY
      = ((ns.reverse.find? (otherHMatch d)).map (fun o => o.position.y)).getD
          acc.snappedY := by
  induction ns using List.reverseRecOn with
  | nil => simp
  | append_singleton l o ih =>
    rw [List.foldl_append, List.foldl_cons, List.foldl_nil, List.reverse_append]
    simp only [List.reverse_cons, List.reverse_nil, List.nil_append,
      List.singleton_append]
    by_cases h : o.id = d.id
    · rw [processOtherNode_skip d o _ h]
      rw [List.find?_cons_of_neg _ (by simp [otherHMatch, h])]
      exact ih
    · rw [processOtherNode_step d o _ h]
      by_cases hv : hMatches d o = true
      · rw [List.find?_cons_of_pos _ (by simp [otherHMatch, h, hv])]
        simp [hv]
      · rw [List.find?_cons_of_neg _ (by simp [otherHMatch, hv])]
        simp only [Bool.not_eq_true] at hv
        simp [hv, ih]

/-- C8: every matching test contributes a guide (the guide list is the
concatenation over the other-node list of per-test guides), and the final
snapped coordinate on each axis is the position of the matching node evaluated
last in iteration order — concretely, dragging to x = 0 next to matches at
x = 3 (nearer) and x = 5 (last) snaps to 5 with all 6 guides present. -/
theorem snapping_all_guides_last_match_wins :
    (∀ (d : NodeData) (ns : List NodeData),
      (calculateSnapping d ns).guides
        = (ns.filter (fun o => o.id != d.id)).flatMap (nodeGuides d) ∧
      (calculateSnapping d ns).snappedPosition.x
        = ((ns.reverse.find? (otherVMatch d)).map (fun o => o.position.x)).getD
            d.position.x ∧
      (calculateSnapping d ns).snappedPosition.y
        = ((ns.reverse.find? (otherHMatch d)).map (fun o => o.position.y)).getD
            d.position.y) ∧
    (calculateSnapping lastDragged [lastNodeA, lastNodeB]).snappedPosition.x = 5 ∧
    (calculateSnapping lastDragged [lastNodeA, lastNodeB]).guides.length = 6 := by
  refine ⟨fun d ns => ⟨?_, ?_, ?_⟩, ?_, ?_⟩
  · exact foldl_guides d ns ⟨d.position.x, d.position.y, []⟩
  · exact foldl_snappedX d ns ⟨d.position.x, d.position.y, []⟩
  · exact foldl_snappedY d ns ⟨d.position.x, d.position.y, []⟩
  · norm_num [calculateSnapping, processOtherNode, stepCenterX, stepLeft,
      stepRight, stepCenterY, stepTop, stepBottom, lastDragged, lastNodeA,
      lastNodeB, centerX, centerY, leftEdge, rightEdge, topEdge, bottomEdge,
      verticalGuide, horizontalGuide, mathAbs, mathMin, mathMax,
      SNAP_THRESHOLD, NODE_WIDTH, NODE_HEIGHT]
    decide
  · norm_num [calculateSnapping, processOtherNode, stepCenterX, stepLeft,
      stepRight, stepCenterY, stepTop, stepBottom, lastDragged, lastNodeA,
      lastNodeB, centerX, centerY, leftEdge, rightEdge, topEdge, bottomEdge,
      verticalGuide, horizontalGuide, mathAbs, mathMin, mathMax,
      SNAP_THRESHOLD, NODE_WIDTH, NODE_HEIGHT]
    decide

/-- C1: with an active draft that has moved, a pointer-up over empty canvas
(host callback present, not panning) raises exactly one node-creation request
carrying the draft's source node, handle type, handle index, and the drop
position converted to world coordinates; the state machine does not return to
Idle and the draft — including its temporary-wire render condition — remains
active. -/
theorem deferred_drop_keeps_draft (cs : ConnectionState)
    (vt : ViewportTransform) (clientX clientY rectLeft rectTop : Rat)
    (s : String) (t : HandleType) (i : Nat)
    (hconn : cs.isConnecting = true)
    (hsrc : cs.sourceNodeId = some s)
    (hty : cs.sourceType = some t)
    (hidx : cs.sourceIndex = some i)
    (hmoved : cs.hasMouseMoved = true) :
    (handleCanvasClick cs false vt true true clientX clientY rectLeft rectTop).requests =
      [⟨s, t, i, ⟨(clientX - rectLeft - vt.x) / vt.scale,
                  (clientY - rectTop - vt.y) / vt.scale⟩⟩] ∧
    (handleCanvasClick cs false vt true true clientX clientY rectLeft rectTop).connection =
      { cs with currentPosition := some ⟨(clientX - rectLeft - vt.x) / vt.scale,
                                        (clientY - rectTop - vt.y) / vt.scale⟩ } ∧
    (handleCanvasClick cs false vt true true clientX clientY rectLeft rectTop).connection.isConnecting
      = true ∧
    tempWireVisible
      (handleCanvasClick cs false vt true true clientX clientY rectLeft rectTop).connection
      = true := by
  simp [handleCanvasClick, hconn, hsrc, hty, hidx, hmoved, tempWireVisible]

/-- Witness for C1 at scale 2, translate (7, 3), rect corner (5, 1), click at
(27, 43): one request at world position ((27-5-7)/2, (43-1-3)/2). -/
theorem deferred_drop_keeps_draft_witness :
    (handleCanvasClick c1Draft false ⟨7, 3, 2⟩ true true 27 43 5 1).requests =
      [⟨"A", .output, 0, ⟨(27 - 5 - 7) / 2, (43 - 1 - 3) / 2⟩⟩] ∧
    (handleCanvasClick c1Draft false ⟨7, 3, 2⟩ true true 27 43 5 1).connection =
      { c1Draft with currentPosition := some ⟨(27 - 5 - 7) / 2, (43 - 1 - 3) / 2⟩ } ∧
    (handleCanvasClick c1Draft false ⟨7, 3, 2⟩ true true 27 43 5 1).connection.isConnecting = true ∧
    tempWireVisible (handleCanvasClick c1Draft false ⟨7, 3, 2⟩ true true 27 43 5 1).connection = true :=
  deferred_drop_keeps_draft c1Draft ⟨7, 3, 2⟩ 27 43 5 1 "A" .output 0 rfl rfl rfl rfl rfl

/-- C10: a node-position update delivered while dragging keeps the wires list
identical, keeps the id list identical, leaves every other node's record
untouched, and changes only the dragged node's position (to its snapped
value). -/
theorem drag_update_only_moves_dragged_node (w : WorkflowData) (u : NodeData)
    (hsame : ∀ n ∈ w.nodes, n.id = u.id → n.type = u.type ∧ n.data = u.data) :
    (handleNodeChangeWorkflow w u true).wires = w.wires ∧
    (handleNodeChangeWorkflow w u true).nodes.map (fun n => n.id)
      = w.nodes.map (fun n => n.id) ∧
    (handleNodeChangeWorkflow w u true).nodes =
      w.nodes.map (fun n =>
        if n.id = u.id then
          { n with position :=
              (calculateSnapping u
                (w.nodes.filter (fun node => node.id ≠ u.id))).snappedPosition }
        else n) := by
  refine ⟨rfl, ?_, ?_⟩
  · simp only [handleNodeChangeWorkflow, List.map_map]
    refine List.map_congr_left ?_
    intro n _
    by_cases h : n.id = u.id <;> simp [h]
  · simp only [handleNodeChangeWorkflow]
    refine List.map_congr_left ?_
    intro n hn
    by_cases h : n.id = u.id
    · obtain ⟨hty, hdata⟩ := hsame n hn h
      simp only [h, if_true, if_pos]
      cases n with
      | mk nid ntype npos ndata =>
        cases u with
        | mk uid utype upos udata =>
          simp_all
    · simp [h]

/-- Witness for C10: applying the drag update to the two-node workflow. -/
theorem drag_update_only_moves_dragged_node_witness :
    (handleNodeChangeWorkflow c10Workflow c10Update true).wires = c10Workflow.wires ∧
    (handleNodeChangeWorkflow c10Workflow c10Update true).nodes.map (fun n => n.id)
      = c10Workflow.nodes.map (fun n => n.id) ∧
    (handleNodeChangeWorkflow c10Workflow c10Update true).nodes =
      c10Workflow.nodes.map (fun n =>
        if n.id = c10Update.id then
          { n with position :=
              (calculateSnapping c10Update
                (c10Workflow.nodes.filter
                  (fun node => node.id ≠ c10Update.id))).snappedPosition }
        else n) :=
  drag_update_only_moves_dragged_node c10Workflow c10Update (by
    intro n hn h
    rcases List.mem_cons.mp hn with rfl | hn2
    · exact ⟨rfl, rfl⟩
    · rcases List.mem_cons.mp hn2 with rfl | hn3
      · exact absurd h (by decide)
      · exact absurd hn3 (List.not_mem_nil n))

end Flowy


